import Mathlib

/-!
Verification development for the quiz chatbot backend (chatbot_backend.py).

The session component (class ChatbotAPI) is shallowly embedded here.
Python strings are modelled as lists of characters; the handful of Python
string primitives the code uses (strip, upper, startswith, the in operator,
split, replace) are defined below with the semantics of their Python
counterparts on the ASCII inputs that occur in the program.  Calls to the
three external collaborators (the conversational model, the sentence
embedding model and the vector index) are modelled by outcome values passed
in explicitly, and every operation additionally returns the list of
collaborator calls it attempted, so that claims about which collaborators
are invoked can be stated.
-/

namespace Shecount

/-- Characters of a string literal; Python strings are modelled as lists of
characters. -/
def str (s : String) : List Char := s.data

/-- Whitespace characters removed by the default Python strip: space, tab,
newline, carriage return, vertical tab and form feed (the ASCII part of
Python isspace, which is all the program ever meets). -/
def isPyWs (c : Char) : Bool :=
  c == ' ' || c == '\t' || c == '\n' || c == '\r' || c == '\x0b' || c == '\x0c'

/-- Python strip(): remove leading and trailing whitespace. -/
def stripL (l : List Char) : List Char :=
  ((l.dropWhile isPyWs).reverse.dropWhile isPyWs).reverse

/-- Python upper() restricted to ASCII, which covers every character the
grading tokens consist of. -/
def upperL (l : List Char) : List Char := l.map Char.toUpper

/-- Python startswith: is the first argument a prefix of the second. -/
def isPrefixL : List Char → List Char → Bool
  | [], _ => true
  | _ :: _, [] => false
  | p :: ps, c :: cs => if p = c then isPrefixL ps cs else false

/-- Python substring membership (the in operator): some occurrence of the
pattern appears in the list. -/
def containsL (pat : List Char) : List Char → Bool
  | [] => isPrefixL pat []
  | c :: rest => isPrefixL pat (c :: rest) || containsL pat rest

/-- Split a list at the first occurrence of the pattern: returns the part
strictly before the occurrence and the part strictly after it, or none when
the pattern does not occur.  This is the scan Python performs when it
locates a separator. -/
def breakOnFirst (pat : List Char) : List Char → Option (List Char × List Char)
  | [] => none
  | c :: rest =>
    if isPrefixL pat (c :: rest) then some ([], (c :: rest).drop pat.length)
    else
      match breakOnFirst pat rest with
      | none => none
      | some (pre, post) => some (c :: pre, post)

/-- Element 0 of the Python split(sep) of a list: the text before the first
occurrence of sep, or the whole list when sep does not occur. -/
def pySplitHead (pat l : List Char) : List Char :=
  match breakOnFirst pat l with
  | none => l
  | some (pre, _) => pre

/-- Element 1 of the Python split(sep) of a list, when it exists: the text
between the first and second occurrences of sep (or everything after the
first occurrence when it is the only one). -/
def pySplitSecond (pat l : List Char) : Option (List Char) :=
  match breakOnFirst pat l with
  | none => none
  | some (_, post) => some (pySplitHead pat post)

/-- Remove every non-overlapping occurrence of the pattern, scanning left to
right.  The fuel argument only bounds the number of removal steps; each step
consumes at least one character of the remainder, so fuel equal to the
length of the list is always enough. -/
def removeAllFuel (pat : List Char) : Nat → List Char → List Char
  | 0, l => l
  | Nat.succ n, l =>
    match breakOnFirst pat l with
    | none => l
    | some (pre, post) => pre ++ removeAllFuel pat n post

/-- Python replace(pat, empty string): remove every non-overlapping
occurrence of pat, scanning left to right.  For the empty pattern Python
would leave the string unchanged when the replacement is empty, which the
guard reproduces. -/
def removeAllL (pat l : List Char) : List Char :=
  if pat = [] then l else removeAllFuel pat l.length l

/-- Outcome of one chat.send_message call: generated text, a
StopCandidateException (content filtering), or a generic exception whose
str(e) rendering is carried. -/
inductive SendOutcome
  | ok (text : List Char)
  | stopCandidate (msg : List Char)
  | err (msg : List Char)
deriving DecidableEq

/-- Message text of a failing outcome, none on success.  Both exception
kinds are failures for call sites that catch the blanket Exception class. -/
def SendOutcome.errText : SendOutcome → Option (List Char)
  | .ok _ => none
  | .stopCandidate m => some m
  | .err m => some m

/-- Metadata record of one vector index match; each field may be absent,
as in the Python dict accessed via metadata.get. -/
structure Metadata where
  title : Option (List Char)
  link : Option (List Char)
  description : Option (List Char)
deriving DecidableEq

/-- Resource attached to an incorrect evaluation. -/
structure Resource where
  title : List Char
  link : List Char
  description : List Char
deriving DecidableEq

/-- Outcome of the resource lookup collaborators inside
get_relevant_resource: the embedding call may raise, the index query may
raise, or the query returns a list of matches. -/
inductive ResourceEnv
  | encodeFail
  | queryFail
  | ok (ms : List Metadata)
deriving DecidableEq

/-- One attempted collaborator call, recorded in program order. -/
inductive Call
  | chatSend (prompt : List Char)
  | encode (text : List Char)
  | indexQuery
deriving DecidableEq

/-- Calls belonging to the resource lookup (embedding encode and index
query), as opposed to conversational model calls. -/
def Call.isLookup : Call → Bool
  | .chatSend _ => false
  | .encode _ => true
  | .indexQuery => true

/-- Whether a call trace contains any step of an attempted resource
lookup. -/
def lookupAttempted (calls : List Call) : Bool := calls.any Call.isLookup

/-- Session state of class ChatbotAPI: the current question and the stored
reference answer.  The chat transcript itself is held by the conversational
model client and is not inspected by any claim; the calls that would extend
it are recorded in the call traces returned by each operation. -/
structure ChatbotAPI where
  current_question : List Char
  correct_answer : List Char
deriving DecidableEq

/-- Fresh session as built by ChatbotAPI.__init__: both fields are the
empty string. -/
def ChatbotAPI.init : ChatbotAPI := ⟨[], []⟩

/-- Result dict of evaluate_answer.  The correct_answer and resource keys
are optional because the short-circuit result omits them and the resource
key is only set when a resource was found. -/
structure EvalResult where
  is_correct : Bool
  message : List Char
  correct_answer : Option (List Char)
  resource : Option Resource
deriving DecidableEq

/-- Collaborator outcomes an evaluate_answer call may consume: the lazy
generate_answer call (used only when the stored answer is empty), the
grading call, whether the index collaborator is configured, and the
resource lookup outcomes. -/
structure EvalEnv where
  answerOutcome : SendOutcome
  gradeOutcome : SendOutcome
  indexConfigured : Bool
  resourceEnv : ResourceEnv
deriving DecidableEq

/-- Module level safety_instruction constant. -/
def safety_instruction : List Char :=
  str "Please ensure that the content you generate is safe, appropriate, and free from explicit or harmful language."

/-- The f-string question_instruction of generate_question. -/
def question_instruction (topic : List Char) : List Char :=
  str "Generate a specific multiple choice or short answer question about " ++ topic ++
    str ". Make it educational and practical. Only provide the question, nothing else."

/-- The f-string answer_instruction of generate_answer. -/
def answer_instruction (q : List Char) : List Char :=
  str "Provide a clear, concise answer to this question: " ++ q ++
    str ". Give a direct answer without extra formatting."

/-- The f-string evaluation_instruction of evaluate_answer (a triple quoted
literal, whitespace included). -/
def evaluation_instruction (q ua ca : List Char) : List Char :=
  str "\n        Question: " ++ q ++
    str "\n        User\x27s Answer: " ++ ua ++
    str "\n        Correct Answer: " ++ ca ++
    str "\n\n        Compare the user\x27s answer to the correct answer. If they are similar in meaning or the user\x27s answer contains the key correct information, respond with \"CORRECT\". Otherwise respond with \"INCORRECT\" followed by a brief explanation.\n        "

/-- The f-string instruction of handle_general_question. -/
def general_instruction (q : List Char) : List Char :=
  str "Answer this financial literacy question: " ++ q ++
    str ". Provide a helpful, educational response."

/-- The f-string combined_instruction of generate_question_with_answer (a
triple quoted literal, whitespace included). -/
def combined_instruction (topic : List Char) : List Char :=
  str "\n        Create a financial literacy question about " ++ topic ++
    str " and provide its answer.\n        Format your response exactly like this:\n\n        QUESTION: [Your question here]\n        ANSWER: [The correct answer here]\n\n        Make the question practical and educational.\n        "

/-- Prompt sent by generate_question_with_answer. -/
def gqwa_prompt (topic : List Char) : List Char :=
  safety_instruction ++ str " " ++ combined_instruction topic

/-- Canned pair stored by generate_question_with_answer when the response
lacks a marker. -/
def fallback_markers_q : List Char :=
  str "What factors should you consider when choosing a credit card?"

/-- Canned answer paired with fallback_markers_q. -/
def fallback_markers_a : List Char :=
  str "When choosing a credit card, consider: annual fees, interest rates (APR), rewards programs, credit limit, accepted locations, customer service, and any special benefits or perks."

/-- Canned pair stored by generate_question_with_answer when the model call
raises. -/
def fallback_error_q : List Char :=
  str "What is an emergency fund and why is it important?"

/-- Canned answer paired with fallback_error_q. -/
def fallback_error_a : List Char :=
  str "An emergency fund is money set aside to cover unexpected expenses like medical bills, car repairs, or job loss. It\x27s important because it provides financial security and prevents you from going into debt during emergencies."

/-- generate_question(topic): one model call; on success the stripped text
with a leading Question: label removed, on content filtering or generic
failure one of two canned questions.  Only current_question is assigned.
Returns the question, the new state and the call trace. -/
def generate_question (s : ChatbotAPI) (topic : List Char) (env : SendOutcome) :
    List Char × ChatbotAPI × List Call :=
  let prompt := safety_instruction ++ str " " ++ question_instruction topic
  let question :=
    match env with
    | .ok text =>
      let q := stripL text
      if isPrefixL (str "Question:") q then stripL (removeAllL (str "Question:") q) else q
    | .stopCandidate _ => str "What is the recommended amount for an emergency fund?"
    | .err _ => fallback_markers_q
  (question, { s with current_question := question }, [.chatSend prompt])

/-- generate_answer(): returns the literal no-question text without any
call when current_question is empty; otherwise one model call, the stripped
text with a leading Answer: label removed on success and a fixed fallback
sentence per failure kind.  Only correct_answer is assigned. -/
def generate_answer (s : ChatbotAPI) (env : SendOutcome) :
    List Char × ChatbotAPI × List Call :=
  if s.current_question = [] then (str "No question available.", s, [])
  else
    let prompt := safety_instruction ++ str " " ++ answer_instruction s.current_question
    let ca :=
      match env with
      | .ok text =>
        let a := stripL text
        if isPrefixL (str "Answer:") a then stripL (removeAllL (str "Answer:") a) else a
      | .stopCandidate _ =>
        str "Please refer to financial literacy resources for the correct answer."
      | .err _ => str "Unable to generate answer at this time."
    (ca, { s with correct_answer := ca }, [.chatSend prompt])

/-- get_relevant_resource(query_text): returns none without any call when
the index is unconfigured; otherwise encodes the text and queries the
index, defaulting missing metadata fields, and swallows every failure into
none. -/
def get_relevant_resource (indexConfigured : Bool) (query_text : List Char)
    (renv : ResourceEnv) : Option Resource × List Call :=
  if !indexConfigured then (none, [])
  else
    match renv with
    | .encodeFail => (none, [.encode query_text])
    | .queryFail => (none, [.encode query_text, .indexQuery])
    | .ok ms =>
      match ms with
      | [] => (none, [.encode query_text, .indexQuery])
      | m :: _ =>
        (some ⟨m.title.getD (str "Financial Resource"), m.link.getD (str "#"),
               m.description.getD []⟩,
         [.encode query_text, .indexQuery])

/-- evaluate_answer(user_answer): short-circuits when no question is set;
lazily generates the reference answer when it is empty; grades via the
model with the substring rule on the uppercased reply; attaches a resource
when judged incorrect and the index is configured; and converts a grading
failure into an error-annotated incorrect result. -/
def evaluate_answer (s : ChatbotAPI) (user_answer : List Char) (env : EvalEnv) :
    EvalResult × ChatbotAPI × List Call :=
  if s.current_question = [] then
    (⟨false, str "No question available.", none, none⟩, s, [])
  else
    let s1 := if s.correct_answer = [] then (generate_answer s env.answerOutcome).2.1 else s
    let preCalls :=
      if s.correct_answer = [] then (generate_answer s env.answerOutcome).2.2
      else ([] : List Call)
    let prompt := safety_instruction ++ str " " ++
      evaluation_instruction s1.current_question user_answer s1.correct_answer
    match env.gradeOutcome with
    | .ok text =>
      let evaluation_text := stripL text
      let is_correct := containsL (str "CORRECT") (upperL evaluation_text) &&
        !containsL (str "INCORRECT") (upperL evaluation_text)
      if !is_correct && env.indexConfigured then
        let rr := get_relevant_resource env.indexConfigured s1.correct_answer env.resourceEnv
        (⟨is_correct, evaluation_text, some s1.correct_answer, rr.1⟩, s1,
         preCalls ++ [.chatSend prompt] ++ rr.2)
      else
        (⟨is_correct, evaluation_text, some s1.correct_answer, none⟩, s1,
         preCalls ++ [.chatSend prompt])
    | .stopCandidate m =>
      (⟨false, str "Error evaluating answer: " ++ m,
        some (if s1.correct_answer = [] then str "Answer not available" else s1.correct_answer),
        none⟩, s1, preCalls ++ [.chatSend prompt])
    | .err m =>
      (⟨false, str "Error evaluating answer: " ++ m,
        some (if s1.correct_answer = [] then str "Answer not available" else s1.correct_answer),
        none⟩, s1, preCalls ++ [.chatSend prompt])

/-- handle_general_question(question): one model call; the raw response
text on success, a fixed apology sentence on any failure; the session
fields are untouched. -/
def handle_general_question (s : ChatbotAPI) (question : List Char) (env : SendOutcome) :
    List Char × ChatbotAPI × List Call :=
  let prompt := safety_instruction ++ str " " ++ general_instruction question
  match env with
  | .ok text => (text, s, [.chatSend prompt])
  | .stopCandidate _ =>
    (str "I apologize, but I\x27m having trouble answering that question right now. Please try again.",
     s, [.chatSend prompt])
  | .err _ =>
    (str "I apologize, but I\x27m having trouble answering that question right now. Please try again.",
     s, [.chatSend prompt])

/-- generate_question_with_answer(topic): one model call; when the stripped
response contains both the QUESTION: and ANSWER: markers, element 0 of the
split on ANSWER: has every QUESTION: occurrence removed and is stripped to
become the question, and element 1 of the split is stripped to become the
answer; otherwise, and on any call failure, a fixed canned pair is stored.
Both session fields are replaced on every path. -/
def generate_question_with_answer (s : ChatbotAPI) (topic : List Char) (env : SendOutcome) :
    List Char × ChatbotAPI × List Call :=
  let prompt := gqwa_prompt topic
  match env with
  | .ok text =>
    let response_text := stripL text
    if containsL (str "QUESTION:") response_text && containsL (str "ANSWER:") response_text then
      let question_part :=
        stripL (removeAllL (str "QUESTION:") (pySplitHead (str "ANSWER:") response_text))
      let answer_part := stripL ((pySplitSecond (str "ANSWER:") response_text).getD [])
      (question_part, ⟨question_part, answer_part⟩, [.chatSend prompt])
    else
      (fallback_markers_q, ⟨fallback_markers_q, fallback_markers_a⟩, [.chatSend prompt])
  | .stopCandidate _ =>
    (fallback_error_q, ⟨fallback_error_q, fallback_error_a⟩, [.chatSend prompt])
  | .err _ =>
    (fallback_error_q, ⟨fallback_error_q, fallback_error_a⟩, [.chatSend prompt])

/-- Rendering of the C4 claim wording for the stored answer: the entire
text after the first ANSWER: marker of the stripped response, whitespace
trimmed.  Stated from the claim sentence, to be compared with what the code
stores. -/
def claim_answer_after_marker (resp : List Char) : List Char :=
  stripL (match breakOnFirst (str "ANSWER:") resp with
          | none => resp
          | some (_, post) => post)

/-- A pattern is a prefix exactly when the list extends it. -/
theorem isPrefixL_iff (pat : List Char) :
    ∀ l, isPrefixL pat l = true ↔ ∃ t, l = pat ++ t := by
  induction pat with
  | nil =>
    intro l
    constructor
    · intro _; exact ⟨l, rfl⟩
    · intro _; rfl
  | cons p ps ih =>
    intro l
    cases l with
    | nil =>
      constructor
      · intro h; simp [isPrefixL] at h
      · rintro ⟨t, ht⟩; exact absurd ht (by simp)
    | cons c cs =>
      constructor
      · intro h
        simp only [isPrefixL] at h
        by_cases hpc : p = c
        · subst hpc
          rw [if_pos rfl] at h
          obtain ⟨t, ht⟩ := (ih cs).mp h
          exact ⟨t, by simp [ht]⟩
        · rw [if_neg hpc] at h; exact absurd h (by simp)
      · rintro ⟨t, ht⟩
        injection ht with h1 h2
        subst h1
        simp only [isPrefixL, if_pos rfl]
        exact (ih cs).mpr ⟨t, h2⟩

/-- When a prefix holds, the pattern occurs. -/
theorem containsL_of_isPrefixL {pat l : List Char} (h : isPrefixL pat l = true) :
    containsL pat l = true := by
  cases l with
  | nil => simpa [containsL] using h
  | cons c cs => simp [containsL, h]

/-- The pattern occurs in any list that decomposes around it. -/
theorem containsL_decomp (pat : List Char) :
    ∀ pre post, containsL pat (pre ++ pat ++ post) = true := by
  intro pre
  induction pre with
  | nil =>
    intro post
    exact containsL_of_isPrefixL ((isPrefixL_iff pat (pat ++ post)).mpr ⟨post, rfl⟩)
  | cons c cs ih =>
    intro post
    show containsL pat (c :: (cs ++ pat ++ post)) = true
    simp only [containsL]
    rw [ih post]
    simp

/-- Soundness and minimality of the first-occurrence scan: it returns a
decomposition of the list around the pattern, and no decomposition has a
shorter part before the pattern. -/
theorem breakOnFirst_spec (pat : List Char) :
    ∀ l pre post, breakOnFirst pat l = some (pre, post) →
      l = pre ++ pat ++ post ∧
        ∀ pre2 post2, l = pre2 ++ pat ++ post2 → pre.length ≤ pre2.length := by
  intro l
  induction l with
  | nil => intro pre post h; simp [breakOnFirst] at h
  | cons c rest ih =>
    intro pre post h
    by_cases hpre : isPrefixL pat (c :: rest) = true
    · rw [breakOnFirst, if_pos hpre] at h
      simp only [Option.some.injEq, Prod.mk.injEq] at h
      obtain ⟨h1, h2⟩ := h
      obtain ⟨t, ht⟩ := (isPrefixL_iff pat (c :: rest)).mp hpre
      have hdrop : (c :: rest).drop pat.length = t := by
        rw [ht]; exact List.drop_left pat t
      constructor
      · rw [← h1, ← h2, hdrop, ht]; rfl
      · intro pre2 post2 _
        rw [← h1]
        exact Nat.zero_le _
    · rw [breakOnFirst, if_neg hpre] at h
      cases hbr : breakOnFirst pat rest with
      | none => rw [hbr] at h; simp at h
      | some pp =>
        obtain ⟨pre1, post1⟩ := pp
        rw [hbr] at h
        simp only [Option.some.injEq, Prod.mk.injEq] at h
        obtain ⟨h1, h2⟩ := h
        obtain ⟨hdec, hmin⟩ := ih pre1 post1 hbr
        constructor
        · rw [← h1, ← h2, hdec]; simp
        · intro pre2 post2 hd2
          cases pre2 with
          | nil =>
            exfalso
            exact hpre ((isPrefixL_iff pat (c :: rest)).mpr ⟨post2, by simpa using hd2⟩)
          | cons c2 pre2t =>
            injection hd2 with _ hrest
            rw [← h1]
            simp only [List.length_cons]
            exact Nat.succ_le_succ (hmin pre2t post2 hrest)

/-- Occurrence testing agrees with the first-occurrence scan for a
non-empty pattern. -/
theorem containsL_eq_isSome (pat : List Char) (hp : pat ≠ []) :
    ∀ l, containsL pat l = (breakOnFirst pat l).isSome := by
  intro l
  induction l with
  | nil =>
    cases pat with
    | nil => exact absurd rfl hp
    | cons p ps => simp [containsL, isPrefixL, breakOnFirst]
  | cons c rest ih =>
    by_cases hpre : isPrefixL pat (c :: rest) = true
    · simp [containsL, breakOnFirst, hpre]
    · simp only [containsL, breakOnFirst, if_neg hpre]
      simp only [Bool.not_eq_true] at hpre
      rw [hpre, Bool.false_or, ih]
      cases hbr : breakOnFirst pat rest with
      | none => simp
      | some pp => cases pp; simp

/-- Completeness of the first-occurrence scan: a minimal decomposition is
the one it returns. -/
theorem breakOnFirst_complete (pat : List Char) (hp : pat ≠ []) (l pre post : List Char)
    (hdec : l = pre ++ pat ++ post)
    (hmin : ∀ pre2 post2, l = pre2 ++ pat ++ post2 → pre.length ≤ pre2.length) :
    breakOnFirst pat l = some (pre, post) := by
  have hc : containsL pat l = true := by rw [hdec]; exact containsL_decomp pat pre post
  rw [containsL_eq_isSome pat hp l] at hc
  cases hbr : breakOnFirst pat l with
  | none => rw [hbr] at hc; simp at hc
  | some pp =>
    obtain ⟨p1, q1⟩ := pp
    obtain ⟨hd1, hm1⟩ := breakOnFirst_spec pat l p1 q1 hbr
    have hlen : p1.length = pre.length :=
      Nat.le_antisymm (hm1 pre post hdec) (hmin p1 q1 hd1)
    have hboth : p1 ++ (pat ++ q1) = pre ++ (pat ++ post) := by
      rw [← List.append_assoc, ← List.append_assoc, ← hd1, ← hdec]
    obtain ⟨hpp, hq⟩ := List.append_inj hboth hlen
    have hqq : q1 = post := List.append_cancel_left hq
    rw [hpp, hqq]

/-- Uppercasing fixes whitespace characters. -/
theorem ws_toUpper {c : Char} (h : isPyWs c = true) : Char.toUpper c = c := by
  simp only [isPyWs, Bool.or_eq_true, beq_iff_eq] at h
  rcases h with ((((h | h) | h) | h) | h) | h <;> rw [h] <;> decide

/-- A whitespace-free pattern is never a prefix of a list starting with a
whitespace character. -/
theorem isPrefixL_cons_ws {pat : List Char} (hws : ∀ x ∈ pat, isPyWs x = false)
    (hp : pat ≠ []) {c : Char} (hc : isPyWs c = true) (l : List Char) :
    isPrefixL pat (c :: l) = false := by
  cases pat with
  | nil => exact absurd rfl hp
  | cons p ps =>
    have hpws : isPyWs p = false := hws p (by simp)
    have hne : p ≠ c := by
      intro h; rw [h, hc] at hpws; exact absurd hpws (by simp)
    simp [isPrefixL, hne]

/-- Dropping a leading whitespace character does not change whether a
whitespace-free pattern occurs. -/
theorem containsL_cons_ws {pat : List Char} (hws : ∀ x ∈ pat, isPyWs x = false)
    (hp : pat ≠ []) {c : Char} (hc : isPyWs c = true) (l : List Char) :
    containsL pat (c :: l) = containsL pat l := by
  simp [containsL, isPrefixL_cons_ws hws hp hc l]

/-- Dropping a whitespace prefix does not change whether a whitespace-free
pattern occurs. -/
theorem containsL_ws_prefix {pat : List Char} (hws : ∀ x ∈ pat, isPyWs x = false)
    (hp : pat ≠ []) :
    ∀ pre, (∀ c ∈ pre, isPyWs c = true) →
      ∀ l, containsL pat (pre ++ l) = containsL pat l := by
  intro pre
  induction pre with
  | nil => intro _ l; rfl
  | cons c cs ih =>
    intro hpre l
    have hc : isPyWs c = true := hpre c (by simp)
    rw [List.cons_append, containsL_cons_ws hws hp hc,
        ih (fun x hx => hpre x (by simp [hx])) l]

/-- Appending one trailing whitespace character does not change whether a
whitespace-free pattern is a prefix. -/
theorem isPrefixL_append_ws {c : Char} (hc : isPyWs c = true) :
    ∀ (l pat : List Char), (∀ x ∈ pat, isPyWs x = false) →
      isPrefixL pat (l ++ [c]) = isPrefixL pat l := by
  intro l
  induction l with
  | nil =>
    intro pat hws
    cases pat with
    | nil => rfl
    | cons p ps =>
      have hpws : isPyWs p = false := hws p (by simp)
      have hne : p ≠ c := by
        intro h; rw [h, hc] at hpws; exact absurd hpws (by simp)
      simp [isPrefixL, hne]
  | cons x xs ih =>
    intro pat hws
    cases pat with
    | nil => rfl
    | cons p ps =>
      show isPrefixL (p :: ps) (x :: (xs ++ [c])) = isPrefixL (p :: ps) (x :: xs)
      simp only [isPrefixL]
      by_cases hpx : p = x
      · simp [hpx, ih ps (fun y hy => hws y (by simp [hy]))]
      · simp [hpx]

/-- Appending one trailing whitespace character does not change whether a
whitespace-free pattern occurs. -/
theorem containsL_append_ws_single {c : Char} (hc : isPyWs c = true) :
    ∀ (l pat : List Char), (∀ x ∈ pat, isPyWs x = false) → pat ≠ [] →
      containsL pat (l ++ [c]) = containsL pat l := by
  intro l
  induction l with
  | nil =>
    intro pat hws hp
    show containsL pat [c] = containsL pat []
    cases pat with
    | nil => exact absurd rfl hp
    | cons p ps => simp [containsL, isPrefixL_cons_ws hws hp hc]
  | cons x xs ih =>
    intro pat hws hp
    show containsL pat (x :: (xs ++ [c])) = containsL pat (x :: xs)
    simp only [containsL]
    rw [ih pat hws hp]
    have := isPrefixL_append_ws hc (x :: xs) pat hws
    rw [show (x :: xs) ++ [c] = x :: (xs ++ [c]) from rfl] at this
    rw [this]

/-- Dropping a whitespace suffix does not change whether a whitespace-free
pattern occurs. -/
theorem containsL_ws_suffix {pat : List Char} (hws : ∀ x ∈ pat, isPyWs x = false)
    (hp : pat ≠ []) :
    ∀ suf, (∀ c ∈ suf, isPyWs c = true) →
      ∀ l, containsL pat (l ++ suf) = containsL pat l := by
  intro suf
  induction suf with
  | nil => intro _ l; simp
  | cons c cs ih =>
    intro hsuf l
    have hc : isPyWs c = true := hsuf c (by simp)
    rw [show l ++ c :: cs = (l ++ [c]) ++ cs by simp,
        ih (fun x hx => hsuf x (by simp [hx])) (l ++ [c]),
        containsL_append_ws_single hc l pat hws hp]

/-- Stripping produces the original list with a whitespace prefix and a
whitespace suffix removed. -/
theorem stripL_decomp (l : List Char) :
    ∃ pre suf, (∀ c ∈ pre, isPyWs c = true) ∧ (∀ c ∈ suf, isPyWs c = true) ∧
      l = pre ++ stripL l ++ suf := by
  refine ⟨l.takeWhile isPyWs, ((l.dropWhile isPyWs).reverse.takeWhile isPyWs).reverse,
    ?_, ?_, ?_⟩
  · intro c hc; exact List.mem_takeWhile_imp hc
  · intro c hc
    rw [List.mem_reverse] at hc
    exact List.mem_takeWhile_imp hc
  · set m := l.dropWhile isPyWs with hm
    have h1 : l.takeWhile isPyWs ++ m = l := List.takeWhile_append_dropWhile isPyWs l
    have h2 : m.reverse.takeWhile isPyWs ++ m.reverse.dropWhile isPyWs = m.reverse :=
      List.takeWhile_append_dropWhile isPyWs m.reverse
    have h3 : m = (m.reverse.dropWhile isPyWs).reverse ++ (m.reverse.takeWhile isPyWs).reverse := by
      have := congrArg List.reverse h2
      rw [List.reverse_append, List.reverse_reverse] at this
      exact this.symm
    calc l = l.takeWhile isPyWs ++ m := h1.symm
      _ = l.takeWhile isPyWs ++ ((m.reverse.dropWhile isPyWs).reverse ++
            (m.reverse.takeWhile isPyWs).reverse) := by rw [← h3]
      _ = l.takeWhile isPyWs ++ stripL l ++ (m.reverse.takeWhile isPyWs).reverse := by
            rw [List.append_assoc]; rfl

/-- Occurrence of an uppercase whitespace-free token in the uppercased
stripped text agrees with its occurrence in the uppercased raw text. -/
theorem containsL_upperL_stripL {pat : List Char} (hws : ∀ x ∈ pat, isPyWs x = false)
    (hp : pat ≠ []) (l : List Char) :
    containsL pat (upperL (stripL l)) = containsL pat (upperL l) := by
  obtain ⟨pre, suf, hpre, hsuf, hdec⟩ := stripL_decomp l
  have hupre : ∀ c ∈ upperL pre, isPyWs c = true := by
    intro c hc
    obtain ⟨c0, hc0, hcu⟩ := List.mem_map.mp hc
    rw [← hcu, ws_toUpper (hpre c0 hc0)]
    exact hpre c0 hc0
  have husuf : ∀ c ∈ upperL suf, isPyWs c = true := by
    intro c hc
    obtain ⟨c0, hc0, hcu⟩ := List.mem_map.mp hc
    rw [← hcu, ws_toUpper (hsuf c0 hc0)]
    exact hsuf c0 hc0
  conv_rhs => rw [hdec]
  rw [show upperL (pre ++ stripL l ++ suf) = upperL pre ++ (upperL (stripL l) ++ upperL suf) by
        simp [upperL, List.append_assoc],
      containsL_ws_prefix hws hp (upperL pre) hupre,
      containsL_ws_suffix hws hp (upperL suf) husuf]

/-- The lazy answer generation step only talks to the conversational model,
never to the lookup collaborators. -/
theorem generate_answer_no_lookup (s : ChatbotAPI) (env : SendOutcome) :
    lookupAttempted (generate_answer s env).2.2 = false := by
  unfold generate_answer
  split
  · rfl
  · rfl

/-- With the index configured, get_relevant_resource always attempts at
least the embedding step of the lookup. -/
theorem get_relevant_resource_attempts (qt : List Char) (renv : ResourceEnv) :
    lookupAttempted (get_relevant_resource true qt renv).2 = true := by
  unfold get_relevant_resource
  cases renv with
  | encodeFail => rfl
  | queryFail => rfl
  | ok ms => cases ms <;> rfl

/-- Claim C1: when the grading call succeeds, the is_correct field produced
by evaluate_answer is true exactly when the uppercased reply text contains
the substring CORRECT and does not contain the substring INCORRECT. -/
theorem C1_evaluate_decision_rule (s : ChatbotAPI) (ua : List Char) (env : EvalEnv)
    (text : List Char) (hq : s.current_question ≠ [])
    (hg : env.gradeOutcome = SendOutcome.ok text) :
    (evaluate_answer s ua env).1.is_correct =
      (containsL (str "CORRECT") (upperL text) &&
        !containsL (str "INCORRECT") (upperL text)) := by
  have hC : containsL (str "CORRECT") (upperL (stripL text)) =
      containsL (str "CORRECT") (upperL text) :=
    containsL_upperL_stripL (by decide) (by decide) text
  have hI : containsL (str "INCORRECT") (upperL (stripL text)) =
      containsL (str "INCORRECT") (upperL text) :=
    containsL_upperL_stripL (by decide) (by decide) text
  unfold evaluate_answer
  rw [if_neg hq, hg]
  split
  · simp only [EvalResult.is_correct]
    rw [hC, hI]
    split <;> rfl
  · simp only [EvalResult.is_correct]
    rw [hC, hI]
    split <;> rfl

/-- Witness for C1: the decision table of the specification, with the first
row obtained through the decision rule theorem. -/
theorem C1_witness :
    (evaluate_answer ⟨str "Q", str "A"⟩ (str "u")
      ⟨SendOutcome.ok [], SendOutcome.ok (str "CORRECT"), false,
       ResourceEnv.ok []⟩).1.is_correct = true ∧
    (evaluate_answer ⟨str "Q", str "A"⟩ (str "u")
      ⟨SendOutcome.ok [], SendOutcome.ok (str "INCORRECT, explanation"), false,
       ResourceEnv.ok []⟩).1.is_correct = false ∧
    (evaluate_answer ⟨str "Q", str "A"⟩ (str "u")
      ⟨SendOutcome.ok [], SendOutcome.ok (str "correct! well done"), false,
       ResourceEnv.ok []⟩).1.is_correct = true ∧
    (evaluate_answer ⟨str "Q", str "A"⟩ (str "u")
      ⟨SendOutcome.ok [], SendOutcome.ok (str "Your answer is incorrect"), false,
       ResourceEnv.ok []⟩).1.is_correct = false ∧
    (evaluate_answer ⟨str "Q", str "A"⟩ (str "u")
      ⟨SendOutcome.ok [], SendOutcome.ok (str ""), false,
       ResourceEnv.ok []⟩).1.is_correct = false := by
  refine ⟨?_, by decide, by decide, by decide, by decide⟩
  have h := C1_evaluate_decision_rule ⟨str "Q", str "A"⟩ (str "u")
    ⟨SendOutcome.ok [], SendOutcome.ok (str "CORRECT"), false, ResourceEnv.ok []⟩
    (str "CORRECT") (by decide) rfl
  rw [h]
  decide

/-- Claim C2: with an empty current question, evaluate_answer returns
exactly the literal no-question result, attempts no collaborator call and
leaves the session untouched. -/
theorem C2_evaluate_no_question (s : ChatbotAPI) (ua : List Char) (env : EvalEnv)
    (hq : s.current_question = []) :
    evaluate_answer s ua env =
      (⟨false, str "No question available.", none, none⟩, s, []) := by
  unfold evaluate_answer
  rw [if_pos hq]

/-- Witness for C2 at a fresh session with every collaborator configured. -/
theorem C2_witness :
    evaluate_answer ChatbotAPI.init (str "hi")
        ⟨SendOutcome.ok [], SendOutcome.ok [], true, ResourceEnv.ok []⟩ =
      (⟨false, str "No question available.", none, none⟩, ChatbotAPI.init, []) :=
  C2_evaluate_no_question ChatbotAPI.init (str "hi")
    ⟨SendOutcome.ok [], SendOutcome.ok [], true, ResourceEnv.ok []⟩ rfl

/-- Counterexample to claim C3: a successful generate_question call
overwrites current_question while correct_answer keeps whatever value it
had before the call, so the two fields are not always replaced together. -/
theorem C3_counterexample :
    (generate_question ⟨str "Q1", str "A1"⟩ (str "t")
        (SendOutcome.ok (str "Q2"))).2.1 = ⟨str "Q2", str "A1"⟩ ∧
    (generate_question ⟨str "Q1", str "A2"⟩ (str "t")
        (SendOutcome.ok (str "Q2"))).2.1 = ⟨str "Q2", str "A2"⟩ := by
  decide

/-- Claim C3 amended: generate_question_with_answer does replace both
fields together on every path, its whole result being independent of the
prior session state; generate_question however writes only
current_question, and generate_answer writes only correct_answer. -/
theorem C3_amended (topic : List Char) (env : SendOutcome) (s s2 : ChatbotAPI) :
    generate_question_with_answer s topic env =
      generate_question_with_answer s2 topic env ∧
    (generate_question s topic env).2.1.correct_answer = s.correct_answer ∧
    (generate_answer s env).2.1.current_question = s.current_question := by
  refine ⟨?_, ?_, ?_⟩
  · unfold generate_question_with_answer
    cases env <;> rfl
  · unfold generate_question
    rfl
  · unfold generate_answer
    split
    · rfl
    · rfl

/-- Counterexample to claim C4: for a response carrying the ANSWER: marker
twice, the code stores only the text between the first and the second
marker, not the entire text after the first marker as the claim states. -/
theorem C4_counterexample :
    (generate_question_with_answer ChatbotAPI.init (str "t")
        (SendOutcome.ok (str "QUESTION: Q ANSWER: A ANSWER: B"))).2.1.correct_answer =
      str "A" ∧
    claim_answer_after_marker (stripL (str "QUESTION: Q ANSWER: A ANSWER: B")) =
      str "A ANSWER: B" ∧
    str "A" ≠ str "A ANSWER: B" := by
  decide

/-- Claim C4 amended: when the stripped response decomposes around the
first occurrence of ANSWER: and also contains QUESTION:, the stored
question is the text before that occurrence with every QUESTION:
occurrence removed and trimmed (so text preceding QUESTION: is kept), the
stored answer is the text between the first and second ANSWER: occurrence
(all of the remainder when the occurrence is unique) trimmed, and the call
returns the stored question. -/
theorem C4_amended (s : ChatbotAPI) (topic text pre post : List Char)
    (hdec : stripL text = pre ++ str "ANSWER:" ++ post)
    (hmin : ∀ pre2 post2, stripL text = pre2 ++ str "ANSWER:" ++ post2 →
      pre.length ≤ pre2.length)
    (hquestion : containsL (str "QUESTION:") (stripL text) = true) :
    (generate_question_with_answer s topic (SendOutcome.ok text)).2.1.current_question =
        stripL (removeAllL (str "QUESTION:") pre) ∧
    (generate_question_with_answer s topic (SendOutcome.ok text)).2.1.correct_answer =
        stripL (pySplitHead (str "ANSWER:") post) ∧
    (generate_question_with_answer s topic (SendOutcome.ok text)).1 =
        (generate_question_with_answer s topic (SendOutcome.ok text)).2.1.current_question := by
  have hbr : breakOnFirst (str "ANSWER:") (stripL text) = some (pre, post) :=
    breakOnFirst_complete (str "ANSWER:") (by decide) (stripL text) pre post hdec hmin
  have hans : containsL (str "ANSWER:") (stripL text) = true := by
    rw [containsL_eq_isSome (str "ANSWER:") (by decide) (stripL text), hbr]
    rfl
  simp only [generate_question_with_answer, hquestion, hans, Bool.and_self,
    eq_self_iff_true, if_true, pySplitHead, pySplitSecond, hbr, Option.getD_some]
  exact ⟨trivial, trivial, trivial⟩

/-- Witness for C4 amended at the well-formed scenario of the spec. -/
theorem C4_witness :
    (generate_question_with_answer ChatbotAPI.init (str "budgeting")
        (SendOutcome.ok (str "QUESTION: How much should you save?\nANSWER: At least 20% of income."))).2.1.current_question =
      str "How much should you save?" ∧
    (generate_question_with_answer ChatbotAPI.init (str "budgeting")
        (SendOutcome.ok (str "QUESTION: How much should you save?\nANSWER: At least 20% of income."))).2.1.correct_answer =
      str "At least 20% of income." := by
  have hbr : breakOnFirst (str "ANSWER:")
      (stripL (str "QUESTION: How much should you save?\nANSWER: At least 20% of income.")) =
      some (str "QUESTION: How much should you save?\n", str " At least 20% of income.") := by
    decide
  obtain ⟨hd, hm⟩ := breakOnFirst_spec (str "ANSWER:") _ _ _ hbr
  obtain ⟨h1, h2, _⟩ := C4_amended ChatbotAPI.init (str "budgeting")
    (str "QUESTION: How much should you save?\nANSWER: At least 20% of income.")
    (str "QUESTION: How much should you save?\n") (str " At least 20% of income.")
    hd hm (by decide)
  refine ⟨?_, ?_⟩
  · rw [h1]; decide
  · rw [h2]; decide

/-- Counterexample to claim C5: the no-question short circuit of
evaluate_answer returns is_correct false while the index collaborator is
configured, yet attempts no resource lookup, so a false is_correct with a
configured index does not imply an attempted lookup. -/
theorem C5_counterexample :
    (evaluate_answer ⟨[], []⟩ (str "hi")
        ⟨SendOutcome.ok [], SendOutcome.ok [], true, ResourceEnv.ok []⟩).1.is_correct =
      false ∧
    (⟨SendOutcome.ok [], SendOutcome.ok [], true,
        ResourceEnv.ok []⟩ : EvalEnv).indexConfigured = true ∧
    lookupAttempted (evaluate_answer ⟨[], []⟩ (str "hi")
        ⟨SendOutcome.ok [], SendOutcome.ok [], true, ResourceEnv.ok []⟩).2.2 = false := by
  decide

/-- Claim C5 amended: a resource lookup is attempted exactly when the
grading call succeeded, judged the answer incorrect and the index
collaborator is configured; the grading-failure path and the no-question
path both produce is_correct false without attempting any lookup. -/
theorem C5_amended (s : ChatbotAPI) (ua : List Char) (env : EvalEnv) :
    (∀ text, s.current_question ≠ [] → env.gradeOutcome = SendOutcome.ok text →
      (lookupAttempted (evaluate_answer s ua env).2.2 = true ↔
        ((evaluate_answer s ua env).1.is_correct = false ∧
          env.indexConfigured = true))) ∧
    (∀ m, s.current_question ≠ [] → env.gradeOutcome.errText = some m →
      lookupAttempted (evaluate_answer s ua env).2.2 = false) ∧
    (s.current_question = [] → (evaluate_answer s ua env).2.2 = []) := by
  refine ⟨?_, ?_, ?_⟩
  · intro text hq hg
    simp only [evaluate_answer, hg, if_neg hq]
    split
    · -- the lookup condition held: the answer was judged incorrect with a
      -- configured index
      split
      · rename_i hcond hca
        rw [Bool.and_eq_true, Bool.not_eq_true'] at hcond
        simp only [EvalResult.is_correct, lookupAttempted, List.any_append, List.any_cons,
          List.any_nil, Call.isLookup, Bool.or_false]
        rw [hcond.2]
        rw [show (generate_answer s env.answerOutcome).2.2.any Call.isLookup =
              lookupAttempted (generate_answer s env.answerOutcome).2.2 from rfl,
            generate_answer_no_lookup,
            show (get_relevant_resource true
                (generate_answer s env.answerOutcome).2.1.correct_answer
                env.resourceEnv).2.any Call.isLookup =
              lookupAttempted (get_relevant_resource true
                (generate_answer s env.answerOutcome).2.1.correct_answer
                env.resourceEnv).2 from rfl,
            get_relevant_resource_attempts]
        simp [hcond.1]
      · rename_i hcond hca
        rw [Bool.and_eq_true, Bool.not_eq_true'] at hcond
        simp only [EvalResult.is_correct, lookupAttempted, List.any_append, List.any_cons,
          List.any_nil, Call.isLookup, Bool.or_false, Bool.false_or]
        rw [hcond.2]
        rw [show (get_relevant_resource true s.correct_answer
                env.resourceEnv).2.any Call.isLookup =
              lookupAttempted (get_relevant_resource true s.correct_answer
                env.resourceEnv).2 from rfl,
            get_relevant_resource_attempts]
        simp [hcond.1]
    · -- the lookup condition failed: correct answer or no configured index
      split
      · rename_i hcond hca
        rw [Bool.and_eq_true, Bool.not_eq_true'] at hcond
        simp only [EvalResult.is_correct, lookupAttempted, List.any_append, List.any_cons,
          List.any_nil, Call.isLookup, Bool.or_false]
        rw [show (generate_answer s env.answerOutcome).2.2.any Call.isLookup =
              lookupAttempted (generate_answer s env.answerOutcome).2.2 from rfl,
            generate_answer_no_lookup]
        constructor
        · intro h; simp at h
        · intro hrhs; exact absurd hrhs hcond
      · rename_i hcond hca
        rw [Bool.and_eq_true, Bool.not_eq_true'] at hcond
        simp only [EvalResult.is_correct, lookupAttempted, List.any_append, List.any_cons,
          List.any_nil, Call.isLookup, Bool.or_false, Bool.false_or]
        constructor
        · intro h; simp at h
        · intro hrhs; exact absurd hrhs hcond
  · intro m hq hm
    cases hgo : env.gradeOutcome with
    | ok t => rw [hgo] at hm; exact absurd hm (by simp [SendOutcome.errText])
    | stopCandidate m2 =>
      simp only [evaluate_answer, hgo, if_neg hq]
      by_cases hca : s.correct_answer = []
      · simp only [if_pos hca, lookupAttempted, List.any_append, List.any_cons, List.any_nil,
          Call.isLookup, Bool.or_false]
        rw [show (generate_answer s env.answerOutcome).2.2.any Call.isLookup =
              lookupAttempted (generate_answer s env.answerOutcome).2.2 from rfl,
            generate_answer_no_lookup]
      · simp only [if_neg hca, lookupAttempted, List.any_append, List.any_cons, List.any_nil,
          Call.isLookup, Bool.or_false]
    | err m2 =>
      simp only [evaluate_answer, hgo, if_neg hq]
      by_cases hca : s.correct_answer = []
      · simp only [if_pos hca, lookupAttempted, List.any_append, List.any_cons, List.any_nil,
          Call.isLookup, Bool.or_false]
        rw [show (generate_answer s env.answerOutcome).2.2.any Call.isLookup =
              lookupAttempted (generate_answer s env.answerOutcome).2.2 from rfl,
            generate_answer_no_lookup]
      · simp only [if_neg hca, lookupAttempted, List.any_append, List.any_cons, List.any_nil,
          Call.isLookup, Bool.or_false]
  · intro hq
    unfold evaluate_answer
    rw [if_pos hq]

/-- Witness for C5 amended: an incorrect grading with a configured index
attempts a lookup, a correct grading does not. -/
theorem C5_witness :
    lookupAttempted (evaluate_answer ⟨str "Q", str "A"⟩ (str "u")
        ⟨SendOutcome.ok [], SendOutcome.ok (str "INCORRECT"), true,
         ResourceEnv.ok []⟩).2.2 = true ∧
    lookupAttempted (evaluate_answer ⟨str "Q", str "A"⟩ (str "u")
        ⟨SendOutcome.ok [], SendOutcome.ok (str "CORRECT"), true,
         ResourceEnv.ok []⟩).2.2 = false := by
  constructor
  · exact ((C5_amended ⟨str "Q", str "A"⟩ (str "u")
      ⟨SendOutcome.ok [], SendOutcome.ok (str "INCORRECT"), true,
       ResourceEnv.ok []⟩).1 (str "INCORRECT") (by decide) rfl).mpr
      (by constructor <;> decide)
  · decide

/-- Claim C6: when the grading call fails with any exception, evaluate_answer
still returns a structured result (the embedding is total, so nothing
escapes the component): is_correct false, the message annotated with the
error text, the stored reference answer as correct_answer, or the fixed
placeholder when the stored answer is empty, and no resource. -/
theorem C6_evaluate_grading_failure (s : ChatbotAPI) (ua : List Char) (env : EvalEnv)
    (m : List Char) (hq : s.current_question ≠ [])
    (hg : env.gradeOutcome.errText = some m) :
    (evaluate_answer s ua env).1.is_correct = false ∧
    (evaluate_answer s ua env).1.message = str "Error evaluating answer: " ++ m ∧
    (evaluate_answer s ua env).1.correct_answer =
      some (if (evaluate_answer s ua env).2.1.correct_answer = []
            then str "Answer not available"
            else (evaluate_answer s ua env).2.1.correct_answer) ∧
    (evaluate_answer s ua env).1.resource = none := by
  cases hgo : env.gradeOutcome with
  | ok t =>
    rw [hgo] at hg
    exact absurd hg (by simp [SendOutcome.errText])
  | stopCandidate m2 =>
    rw [hgo] at hg
    simp only [SendOutcome.errText, Option.some.injEq] at hg
    subst hg
    simp only [evaluate_answer, hgo, if_neg hq]
    exact ⟨trivial, trivial, trivial, trivial⟩
  | err m2 =>
    rw [hgo] at hg
    simp only [SendOutcome.errText, Option.some.injEq] at hg
    subst hg
    simp only [evaluate_answer, hgo, if_neg hq]
    exact ⟨trivial, trivial, trivial, trivial⟩

/-- Witness for C6: a generic grading exception with a stored answer, and a
content-filter exception with an empty stored answer whose lazy generation
also failed, exercising the placeholder. -/
theorem C6_witness :
    (evaluate_answer ⟨str "Q", str "A"⟩ (str "u")
        ⟨SendOutcome.ok [], SendOutcome.err (str "boom"), true,
         ResourceEnv.ok []⟩).1.is_correct = false ∧
    (evaluate_answer ⟨str "Q", str "A"⟩ (str "u")
        ⟨SendOutcome.ok [], SendOutcome.err (str "boom"), true,
         ResourceEnv.ok []⟩).1.message = str "Error evaluating answer: boom" ∧
    (evaluate_answer ⟨str "Q", str "A"⟩ (str "u")
        ⟨SendOutcome.ok [], SendOutcome.err (str "boom"), true,
         ResourceEnv.ok []⟩).1.correct_answer = some (str "A") := by
  obtain ⟨h1, h2, h3, _⟩ := C6_evaluate_grading_failure ⟨str "Q", str "A"⟩ (str "u")
    ⟨SendOutcome.ok [], SendOutcome.err (str "boom"), true, ResourceEnv.ok []⟩
    (str "boom") (by decide) rfl
  refine ⟨h1, ?_, ?_⟩
  · rw [h2]; decide
  · rw [h3]; decide

/-- Claim C7: when the stripped response lacks one of the markers, a
successful generate_question_with_answer stores the fixed credit card pair
independently of the response content and of the prior state, and makes no
collaborator call beyond the single send; the failure paths likewise store
the fixed emergency fund pair after their single send. -/
theorem C7_gqwa_fallbacks (s : ChatbotAPI) (topic text m : List Char) :
    ((containsL (str "QUESTION:") (stripL text) &&
        containsL (str "ANSWER:") (stripL text)) = false →
      generate_question_with_answer s topic (SendOutcome.ok text) =
        (fallback_markers_q, ⟨fallback_markers_q, fallback_markers_a⟩,
         [Call.chatSend (gqwa_prompt topic)])) ∧
    generate_question_with_answer s topic (SendOutcome.err m) =
      (fallback_error_q, ⟨fallback_error_q, fallback_error_a⟩,
       [Call.chatSend (gqwa_prompt topic)]) ∧
    generate_question_with_answer s topic (SendOutcome.stopCandidate m) =
      (fallback_error_q, ⟨fallback_error_q, fallback_error_a⟩,
       [Call.chatSend (gqwa_prompt topic)]) := by
  refine ⟨?_, rfl, rfl⟩
  intro h
  simp only [generate_question_with_answer, h]
  rfl

/-- Witness for C7 on a markerless response. -/
theorem C7_witness :
    generate_question_with_answer ChatbotAPI.init (str "budgeting")
        (SendOutcome.ok (str "hello")) =
      (fallback_markers_q, ⟨fallback_markers_q, fallback_markers_a⟩,
       [Call.chatSend (gqwa_prompt (str "budgeting"))]) :=
  (C7_gqwa_fallbacks ChatbotAPI.init (str "budgeting") (str "hello") []).1 (by decide)

/-- Counterexample to claim C8: the response QUESTION:ANSWER:x contains
both markers, so the parsing branch runs, and it stores the empty string as
current_question, leaving the session questionless. -/
theorem C8_counterexample :
    (generate_question_with_answer ChatbotAPI.init (str "t")
        (SendOutcome.ok (str "QUESTION:ANSWER:x"))).2.1.current_question = [] := by
  decide

/-- Claim C8 amended: after generate_question_with_answer the session can
only be questionless when the call succeeded with a response that contains
both markers and whose parsed question text is empty; the markerless and
failure fallbacks always store non-empty questions. -/
theorem C8_amended (s : ChatbotAPI) (topic : List Char) (env : SendOutcome)
    (h : (generate_question_with_answer s topic env).2.1.current_question = []) :
    ∃ text, env = SendOutcome.ok text ∧
      containsL (str "QUESTION:") (stripL text) = true ∧
      containsL (str "ANSWER:") (stripL text) = true ∧
      stripL (removeAllL (str "QUESTION:")
        (pySplitHead (str "ANSWER:") (stripL text))) = [] := by
  cases env with
  | ok text =>
    refine ⟨text, rfl, ?_⟩
    by_cases hm : (containsL (str "QUESTION:") (stripL text) &&
        containsL (str "ANSWER:") (stripL text)) = true
    · simp only [generate_question_with_answer, hm, eq_self_iff_true, if_true] at h
      rw [Bool.and_eq_true] at hm
      exact ⟨hm.1, hm.2, h⟩
    · exfalso
      rw [Bool.not_eq_true] at hm
      simp only [generate_question_with_answer, hm, Bool.false_eq_true, if_false] at h
      exact absurd h (by decide)
  | stopCandidate m =>
    exfalso
    simp only [generate_question_with_answer] at h
    exact absurd h (by decide)
  | err m =>
    exfalso
    simp only [generate_question_with_answer] at h
    exact absurd h (by decide)

/-- Witness for C8 amended at the double-marker response with an empty
question segment. -/
theorem C8_witness :
    (generate_question_with_answer ChatbotAPI.init (str "t")
        (SendOutcome.ok (str "QUESTION:ANSWER:x"))).2.1.current_question = [] ∧
    ∃ text, (SendOutcome.ok (str "QUESTION:ANSWER:x") : SendOutcome) =
        SendOutcome.ok text ∧
      containsL (str "QUESTION:") (stripL text) = true ∧
      containsL (str "ANSWER:") (stripL text) = true ∧
      stripL (removeAllL (str "QUESTION:")
        (pySplitHead (str "ANSWER:") (stripL text))) = [] :=
  ⟨by decide, C8_amended ChatbotAPI.init (str "t")
    (SendOutcome.ok (str "QUESTION:ANSWER:x")) (by decide)⟩

/-- Claim C9: handle_general_question never touches the session state, and
returns the raw model text on success or the fixed apology sentence on any
failure. -/
theorem C9_handle_general_frame (s : ChatbotAPI) (q : List Char) (env : SendOutcome) :
    (handle_general_question s q env).2.1 = s ∧
    (∀ text, env = SendOutcome.ok text → (handle_general_question s q env).1 = text) ∧
    (∀ m, env.errText = some m → (handle_general_question s q env).1 =
      str "I apologize, but I\x27m having trouble answering that question right now. Please try again.") := by
  refine ⟨?_, ?_, ?_⟩
  · cases env <;> rfl
  · rintro text rfl; rfl
  · intro m hm
    cases env with
    | ok t => exact absurd hm (by simp [SendOutcome.errText])
    | stopCandidate m2 => rfl
    | err m2 => rfl

/-- Witness for C9 on a success and on a failure outcome. -/
theorem C9_witness :
    (handle_general_question ⟨str "Q", str "A"⟩ (str "what is APR")
        (SendOutcome.ok (str "a rate"))).1 = str "a rate" ∧
    (handle_general_question ⟨str "Q", str "A"⟩ (str "what is APR")
        (SendOutcome.err (str "x"))).2.1 = (⟨str "Q", str "A"⟩ : ChatbotAPI) :=
  ⟨(C9_handle_general_frame ⟨str "Q", str "A"⟩ (str "what is APR")
      (SendOutcome.ok (str "a rate"))).2.1 (str "a rate") rfl,
   (C9_handle_general_frame ⟨str "Q", str "A"⟩ (str "what is APR")
      (SendOutcome.err (str "x"))).1⟩

/-- Claim C10: the empty string is the representation of an absent
question: the fresh session has empty fields, and any session with an empty
current_question, including one produced by generate_question_with_answer
parsing an empty question text, takes the literal no-question short circuit
in generate_answer and evaluate_answer without any collaborator call. -/
theorem C10_empty_question_absence (s : ChatbotAPI) (ua topic etext : List Char)
    (env : EvalEnv) (aenv : SendOutcome) :
    ChatbotAPI.init.current_question = [] ∧
    ChatbotAPI.init.correct_answer = [] ∧
    (s.current_question = [] →
      generate_answer s aenv = (str "No question available.", s, [])) ∧
    (s.current_question = [] →
      evaluate_answer s ua env =
        (⟨false, str "No question available.", none, none⟩, s, [])) ∧
    ((generate_question_with_answer s topic (SendOutcome.ok etext)).2.1.current_question = [] →
      evaluate_answer (generate_question_with_answer s topic (SendOutcome.ok etext)).2.1 ua env =
        (⟨false, str "No question available.", none, none⟩,
         (generate_question_with_answer s topic (SendOutcome.ok etext)).2.1, [])) := by
  refine ⟨rfl, rfl, ?_, ?_, ?_⟩
  · intro h
    unfold generate_answer
    rw [if_pos h]
  · intro h
    unfold evaluate_answer
    rw [if_pos h]
  · intro h
    unfold evaluate_answer
    rw [if_pos h]

/-- Witness for C10: a session that stored an empty parsed question is
treated exactly like a fresh one by evaluate_answer. -/
theorem C10_witness :
    evaluate_answer (generate_question_with_answer ChatbotAPI.init (str "t")
        (SendOutcome.ok (str "QUESTION:ANSWER:x"))).2.1 (str "u")
        ⟨SendOutcome.ok [], SendOutcome.ok [], true, ResourceEnv.ok []⟩ =
      (⟨false, str "No question available.", none, none⟩,
       (generate_question_with_answer ChatbotAPI.init (str "t")
          (SendOutcome.ok (str "QUESTION:ANSWER:x"))).2.1, []) :=
  (C10_empty_question_absence ChatbotAPI.init (str "u") (str "t")
      (str "QUESTION:ANSWER:x")
      ⟨SendOutcome.ok [], SendOutcome.ok [], true, ResourceEnv.ok []⟩
      (SendOutcome.ok [])).2.2.2.2 (by decide)

end Shecount
